import Mathlib

/-!
Verification of the gold-dust-vpn routing core: a shallow embedding of
`src/config.rs`, `src/router.rs` and the decision functions of
`src/main.rs`, together with theorems about the backend-selection policy.

Latency and failure-rate values are `f64` in the source; every value that
occurs is a small decimal literal and every comparison the code performs on
them is exact, so they are embedded as rationals.  Fallible operations
returning `Result<_, Box<dyn Error>>` are embedded as `Except String _`,
the error carrying the message the source puts in the box.
-/

/-- Embeds `BackendConfig` from `src/config.rs`: on/off flags for the two
backend kinds. -/
structure BackendConfig where
  oxen_enabled : Bool
  tor_enabled : Bool
deriving DecidableEq

/-- Embeds `GoldDustConfig` from `src/config.rs`. -/
structure GoldDustConfig where
  backends : BackendConfig
deriving DecidableEq

/-- Embeds `BackendKind` from `src/router.rs`. -/
inductive BackendKind where
  | Oxen
  | Tor
deriving DecidableEq

/-- Embeds `BackendHealth` from `src/router.rs`. -/
structure BackendHealth where
  name : String
  kind : BackendKind
  latency_ms : ℚ
  failure_rate : ℚ
  enabled : Bool
deriving DecidableEq

/-- Embeds `RouterSnapshot` from `src/router.rs`. -/
structure RouterSnapshot where
  backends : List BackendHealth
deriving DecidableEq

/-- Embeds `BackendChoice` from `src/router.rs`. -/
structure BackendChoice where
  target : String
  backend : BackendHealth
deriving DecidableEq

namespace Router

/-- Embeds `Router::sample_health` from `src/router.rs`: the static
three-entry health snapshot, with each `enabled` flag copied from the
configuration toggle of its kind. -/
def sample_health (cfg : GoldDustConfig) : RouterSnapshot :=
  let oxen_enabled := cfg.backends.oxen_enabled
  let tor_enabled := cfg.backends.tor_enabled
  { backends :=
      [ { name := "oxen-node-1", kind := BackendKind.Oxen,
          latency_ms := 55, failure_rate := 0.020, enabled := oxen_enabled },
        { name := "oxen-node-2", kind := BackendKind.Oxen,
          latency_ms := 70, failure_rate := 0.040, enabled := oxen_enabled },
        { name := "tor-exit-1", kind := BackendKind.Tor,
          latency_ms := 250, failure_rate := 0.010, enabled := tor_enabled } ] }

/-- Embeds `Router::status` from `src/router.rs`: returns the current
snapshot, wrapped in `Ok`. -/
def status (cfg : GoldDustConfig) : Except String RouterSnapshot :=
  Except.ok (sample_health cfg)

/-- The stable sort by latency the source performs with `sort_by` over
`partial_cmp(..).unwrap_or(Equal)`; on the non-NaN values of this program
that comparator is the numeric order on latencies. -/
def sortByLatency (l : List BackendHealth) : List BackendHealth :=
  l.insertionSort (fun a b => a.latency_ms ≤ b.latency_ms)

/-- The enabled-Oxen candidate list of `Router::choose_backend`
(filter, then sort by latency). -/
def oxen_candidates (cfg : GoldDustConfig) : List BackendHealth :=
  sortByLatency
    ((sample_health cfg).backends.filter
      (fun b => b.enabled && b.kind == BackendKind.Oxen))

/-- The enabled-Tor candidate list of `Router::choose_backend`
(filter, then sort by latency). -/
def tor_candidates (cfg : GoldDustConfig) : List BackendHealth :=
  sortByLatency
    ((sample_health cfg).backends.filter
      (fun b => b.enabled && b.kind == BackendKind.Tor))

/-- Embeds `Router::choose_backend` from `src/router.rs`: first enabled
Oxen node by latency, else first enabled Tor exit by latency, else the
`no enabled backends available` error. -/
def choose_backend (cfg : GoldDustConfig) (target : String) :
    Except String BackendChoice :=
  match (oxen_candidates cfg).head? with
  | some best_oxen => Except.ok { target := target, backend := best_oxen }
  | none =>
    match (tor_candidates cfg).head? with
    | some best_tor => Except.ok { target := target, backend := best_tor }
    | none => Except.error "no enabled backends available"

end Router

/-- Evaluation of `Router.choose_backend` on each of the four flag
configurations, with the target left symbolic.  Shared helper for the
theorems below. -/
theorem Router.choose_backend_eval (o t : Bool) (target : String) :
    Router.choose_backend ⟨⟨o, t⟩⟩ target =
      if o then
        Except.ok ⟨target,
          { name := "oxen-node-1", kind := BackendKind.Oxen,
            latency_ms := 55, failure_rate := 0.020, enabled := true }⟩
      else if t then
        Except.ok ⟨target,
          { name := "tor-exit-1", kind := BackendKind.Tor,
            latency_ms := 250, failure_rate := 0.010, enabled := true }⟩
      else Except.error "no enabled backends available" := by
  cases o <;> cases t <;> rfl

namespace Main

/-- Embeds `BackendsConfig` from `src/main.rs`. -/
structure BackendsConfig where
  oxen_enabled : Bool
  tor_enabled : Bool
deriving DecidableEq

/-- Embeds the `GoldDustConfig` struct of `src/main.rs` (a separate type
from the one in `src/config.rs`, with the same shape). -/
structure GoldDustConfig where
  backends : BackendsConfig
deriving DecidableEq

/-- Embeds the `BackendChoice` enum of `src/main.rs`. -/
inductive BackendChoice where
  | Oxen
  | Tor
  | None (reason : String)
deriving DecidableEq

/-- Embeds `check_backends` from `src/main.rs`: one line per backend kind,
joined by newlines. -/
def check_backends (cfg : GoldDustConfig) : String :=
  let oxen_line :=
    if cfg.backends.oxen_enabled then "Oxen: enabled (stubbed healthy)"
    else "Oxen: disabled"
  let tor_line :=
    if cfg.backends.tor_enabled then "Tor: enabled (stubbed healthy)"
    else "Tor: disabled"
  String.intercalate "\n" [oxen_line, tor_line]

/-- Embeds the flag-only `choose_backend` from `src/main.rs` (the target
argument is ignored there, as here). -/
def choose_backend (cfg : GoldDustConfig) (_target : String) : BackendChoice :=
  if cfg.backends.oxen_enabled then BackendChoice.Oxen
  else if cfg.backends.tor_enabled then BackendChoice.Tor
  else BackendChoice.None "no backends enabled in config"

end Main

/-- The label the spec gives each backend kind in the status summary. -/
def BackendKind.label : BackendKind → String
  | BackendKind.Oxen => "Oxen"
  | BackendKind.Tor => "Tor"

/-- Modelled from the spec (for comparison with `Main.check_backends`, not
from the source): the status summary as section 6 words it, one line per
backend instance of the snapshot, each line `<Kind>: enabled|disabled`. -/
def specStatusSummary (cfg : GoldDustConfig) : String :=
  String.intercalate "\n"
    ((Router.sample_health cfg).backends.map
      (fun b => b.kind.label ++ ": " ++ (if b.enabled then "enabled" else "disabled")))

/-- Claim C1: whenever the Oxen toggle is on, `choose_backend` succeeds
with a backend of kind Oxen, for every target and regardless of the Tor
toggle. -/
theorem choose_backend_oxen_enabled_picks_oxen
    (cfg : GoldDustConfig) (target : String)
    (h : cfg.backends.oxen_enabled = true) :
    ∃ choice, Router.choose_backend cfg target = Except.ok choice ∧
      choice.backend.kind = BackendKind.Oxen := by
  obtain ⟨⟨o, t⟩⟩ := cfg
  simp only at h
  subst h
  rw [Router.choose_backend_eval]
  exact ⟨_, if_pos rfl, rfl⟩

/-- Witness for C1 at a concrete configuration and target. -/
theorem choose_backend_oxen_enabled_picks_oxen_witness :
    ∃ choice,
      Router.choose_backend ⟨⟨true, true⟩⟩ "example.com:443" = Except.ok choice ∧
      choice.backend.kind = BackendKind.Oxen :=
  choose_backend_oxen_enabled_picks_oxen ⟨⟨true, true⟩⟩ "example.com:443" rfl

/-- Claim C2: with the Oxen toggle off and the Tor toggle on,
`choose_backend` succeeds with the Tor backend named tor-exit-1, for every
target. -/
theorem choose_backend_tor_fallback
    (cfg : GoldDustConfig) (target : String)
    (h1 : cfg.backends.oxen_enabled = false)
    (h2 : cfg.backends.tor_enabled = true) :
    ∃ choice, Router.choose_backend cfg target = Except.ok choice ∧
      choice.backend.kind = BackendKind.Tor ∧
      choice.backend.name = "tor-exit-1" := by
  obtain ⟨⟨o, t⟩⟩ := cfg
  simp only at h1 h2
  subst h1
  subst h2
  rw [Router.choose_backend_eval]
  exact ⟨_, rfl, rfl, rfl⟩

/-- Witness for C2 at a concrete target. -/
theorem choose_backend_tor_fallback_witness :
    ∃ choice,
      Router.choose_backend ⟨⟨false, true⟩⟩ "example.com:443" = Except.ok choice ∧
      choice.backend.kind = BackendKind.Tor ∧
      choice.backend.name = "tor-exit-1" :=
  choose_backend_tor_fallback ⟨⟨false, true⟩⟩ "example.com:443" rfl rfl

/-- Claim C3: `choose_backend` returns the no-backend-available error
exactly when both filtered candidate lists are empty, equivalently exactly
when both flags are off; with at least one flag on it succeeds. -/
theorem choose_backend_error_characterization
    (cfg : GoldDustConfig) (target : String) :
    (Router.choose_backend cfg target = Except.error "no enabled backends available" ↔
      (Router.oxen_candidates cfg = [] ∧ Router.tor_candidates cfg = [])) ∧
    (Router.choose_backend cfg target = Except.error "no enabled backends available" ↔
      (cfg.backends.oxen_enabled = false ∧ cfg.backends.tor_enabled = false)) ∧
    ((Router.choose_backend cfg target).isOk =
      (cfg.backends.oxen_enabled || cfg.backends.tor_enabled)) := by
  obtain ⟨⟨o, t⟩⟩ := cfg
  have hok : ∀ (c : BackendChoice),
      Except.ok c ≠ (Except.error "no enabled backends available" :
        Except String BackendChoice) := by
    intro c hc
    exact Except.noConfusion hc
  cases o <;> cases t
  case false.false =>
    exact ⟨⟨fun _ => ⟨rfl, rfl⟩, fun _ => rfl⟩, ⟨fun _ => ⟨rfl, rfl⟩, fun _ => rfl⟩, rfl⟩
  case false.true =>
    refine ⟨⟨fun h => ?_, fun h => ?_⟩, ⟨fun h => ?_, fun h => ?_⟩, rfl⟩
    · exact absurd h (hok _)
    · exact absurd h.2 (by decide)
    · exact absurd h (hok _)
    · exact absurd h.2 (by decide)
  case true.false =>
    refine ⟨⟨fun h => ?_, fun h => ?_⟩, ⟨fun h => ?_, fun h => ?_⟩, rfl⟩
    · exact absurd h (hok _)
    · exact absurd h.1 (by decide)
    · exact absurd h (hok _)
    · exact absurd h.1 (by decide)
  case true.true =>
    refine ⟨⟨fun h => ?_, fun h => ?_⟩, ⟨fun h => ?_, fun h => ?_⟩, rfl⟩
    · exact absurd h (hok _)
    · exact absurd h.1 (by decide)
    · exact absurd h (hok _)
    · exact absurd h.1 (by decide)

/-- Claim C4: for the all-enabled configuration and target example.com:443,
`choose_backend` succeeds with the Oxen backend named oxen-node-1, which has
the lowest latency among the enabled Oxen candidates. -/
theorem choose_backend_scenario_one :
    Router.choose_backend ⟨⟨true, true⟩⟩ "example.com:443" =
      Except.ok ⟨"example.com:443",
        { name := "oxen-node-1", kind := BackendKind.Oxen,
          latency_ms := 55, failure_rate := 0.020, enabled := true }⟩ ∧
    ((Router.oxen_candidates ⟨⟨true, true⟩⟩).all
      (fun b => decide ((55 : ℚ) ≤ b.latency_ms))) = true := by
  exact ⟨rfl, by decide⟩

/-- Claim C5: `sample_health` returns, for every configuration, the same
fixed catalog of exactly three records (two Oxen, one Tor, with hardcoded
names, latencies and failure rates), and each record's enabled flag equals
the configuration toggle of its kind. -/
theorem sample_health_fixed_catalog (cfg : GoldDustConfig) :
    ((Router.sample_health cfg).backends.map
        (fun b => (b.name, b.kind, b.latency_ms, b.failure_rate)) =
      [("oxen-node-1", BackendKind.Oxen, (55 : ℚ), (0.020 : ℚ)),
       ("oxen-node-2", BackendKind.Oxen, (70 : ℚ), (0.040 : ℚ)),
       ("tor-exit-1", BackendKind.Tor, (250 : ℚ), (0.010 : ℚ))]) ∧
    ((Router.sample_health cfg).backends.all
      (fun b => b.enabled ==
        (match b.kind with
         | BackendKind.Oxen => cfg.backends.oxen_enabled
         | BackendKind.Tor => cfg.backends.tor_enabled))) = true := by
  obtain ⟨⟨o, t⟩⟩ := cfg
  cases o <;> cases t <;> exact ⟨rfl, rfl⟩

/-- Claim C6: for every configuration, `status` is exactly the snapshot of
`sample_health` wrapped in Ok; the error branch is unreachable. -/
theorem status_never_fails (cfg : GoldDustConfig) :
    Router.status cfg = Except.ok (Router.sample_health cfg) ∧
    (Router.status cfg).isOk = true :=
  ⟨rfl, rfl⟩

/-- Claim C8: the target is an inert label: the chosen backend (and the
success or failure of the selection) is the same for any two targets, and
on success the returned target field is exactly the input target. -/
theorem target_is_inert_label (cfg : GoldDustConfig) (t1 t2 : String) :
    (Router.choose_backend cfg t1).map (fun c => c.backend) =
      (Router.choose_backend cfg t2).map (fun c => c.backend) ∧
    (Router.choose_backend cfg t1).map (fun c => c.target) =
      (Router.choose_backend cfg t1).map (fun _ => t1) := by
  obtain ⟨⟨o, t⟩⟩ := cfg
  cases o <;> cases t <;> exact ⟨rfl, rfl⟩

/-- Claim C9: the flag-only `choose_backend` of main.rs agrees in outcome
kind with the Router selection on every configuration: Oxen iff the Router
picks an Oxen backend, Tor iff it picks a Tor backend, None iff the Router
errors. -/
theorem main_choose_backend_refines_router (o t : Bool) (target : String) :
    (Main.choose_backend ⟨⟨o, t⟩⟩ target = Main.BackendChoice.Oxen ↔
      (Router.choose_backend ⟨⟨o, t⟩⟩ target).toOption.map (fun c => c.backend.kind) =
        some BackendKind.Oxen) ∧
    (Main.choose_backend ⟨⟨o, t⟩⟩ target = Main.BackendChoice.Tor ↔
      (Router.choose_backend ⟨⟨o, t⟩⟩ target).toOption.map (fun c => c.backend.kind) =
        some BackendKind.Tor) ∧
    ((∃ r, Main.choose_backend ⟨⟨o, t⟩⟩ target = Main.BackendChoice.None r) ↔
      (Router.choose_backend ⟨⟨o, t⟩⟩ target).toOption = none) := by
  cases o <;> cases t <;>
    simp [Main.choose_backend, Router.choose_backend_eval, Except.toOption]

/-- Claim C10: a successful selection always returns an enabled backend
that is one of the records of the snapshot for that configuration. -/
theorem chosen_backend_enabled_and_in_snapshot
    (cfg : GoldDustConfig) (target : String) (choice : BackendChoice)
    (h : Router.choose_backend cfg target = Except.ok choice) :
    choice.backend.enabled = true ∧
    choice.backend ∈ (Router.sample_health cfg).backends := by
  obtain ⟨⟨o, t⟩⟩ := cfg
  cases o <;> cases t
  case false.false => exact Except.noConfusion h
  case false.true =>
    injection h with h1
    subst h1
    exact ⟨rfl, List.Mem.tail _ (List.Mem.tail _ (List.Mem.head _))⟩
  case true.false =>
    injection h with h1
    subst h1
    exact ⟨rfl, List.Mem.head _⟩
  case true.true =>
    injection h with h1
    subst h1
    exact ⟨rfl, List.Mem.head _⟩

/-- Witness for C10 at a concrete configuration, target and choice. -/
theorem chosen_backend_enabled_and_in_snapshot_witness :
    (⟨"oxen-node-1", BackendKind.Oxen, 55, 0.020, true⟩ : BackendHealth).enabled = true ∧
    (⟨"oxen-node-1", BackendKind.Oxen, 55, 0.020, true⟩ : BackendHealth) ∈
      (Router.sample_health ⟨⟨true, true⟩⟩).backends :=
  chosen_backend_enabled_and_in_snapshot ⟨⟨true, true⟩⟩ "example.com:443"
    ⟨"example.com:443", ⟨"oxen-node-1", BackendKind.Oxen, 55, 0.020, true⟩⟩ rfl

/-- Counterexample to claim C7: at the all-enabled configuration the
status summary printed by main.rs is not the per-instance summary of the
form spelled out by the spec (the code prints one line per backend kind,
and enabled lines carry a stubbed-healthy suffix). -/
theorem check_backends_differs_from_spec_summary :
    Main.check_backends ⟨⟨true, true⟩⟩ ≠ specStatusSummary ⟨⟨true, true⟩⟩ := by
  decide

/-- Claim C7 as amended: the status summary has one line per backend kind
(not per instance): a disabled kind yields a disabled line, an enabled kind
an enabled line with the stubbed-healthy suffix. -/
theorem check_backends_per_kind_lines (cfg : Main.GoldDustConfig) :
    Main.check_backends cfg =
      (if cfg.backends.oxen_enabled then "Oxen: enabled (stubbed healthy)"
       else "Oxen: disabled") ++ "\n" ++
      (if cfg.backends.tor_enabled then "Tor: enabled (stubbed healthy)"
       else "Tor: disabled") := by
  obtain ⟨⟨o, t⟩⟩ := cfg
  cases o <;> cases t <;> decide
